import Mathlib

/-!
A verification development for the `tisoportes/logger` Go package
(`logger.go`).  The package is a leveled logging facade: five severity
levels, console plus optional file output, caller-site annotation, and
manual log-file rotation.  The definitions below are a shallow embedding
of `logger.go`: pure message formatting is modelled as Lean functions on
strings, and the package-level mutable state (`currentLevel`, the five
`log.Logger` values' shared output, and `logFile`) together with the
filesystem is modelled as explicit state passing over `LoggerState` and
`World`.  Filesystem syscall outcomes (`os.MkdirAll`, `os.OpenFile`,
`os.Rename`) are modelled by boolean oracles in `World`, and file
contents by an association list from path to content.
-/

namespace Logger

/-! ### Go values and the fmt-package fragment used by logger.go

`fmt.Sprint` concatenates the operands' default string forms, inserting a
single space between two adjacent operands only when neither operand is a
string.  A `GoVal` records exactly what that rule needs: whether the
operand is a string, and its default formatted text. -/

inductive GoVal where
  | str : String → GoVal
  | other : String → GoVal
deriving DecidableEq

/-- The default `fmt` text of an operand (for `GoVal.str s` it is `s`
itself; for a non-string operand it is the operand's default format). -/
def GoVal.format : GoVal → String
  | .str s => s
  | .other r => r

def GoVal.isStr : GoVal → Bool
  | .str _ => true
  | .other _ => false

/-- Model of `fmt.Sprint(v...)`: operands concatenated, with a space
between two adjacent operands exactly when neither is a string. -/
def sprint : List GoVal → String
  | [] => ""
  | [x] => x.format
  | x :: y :: rest =>
      x.format ++ (if x.isStr = false ∧ y.isStr = false then " " else "") ++ sprint (y :: rest)

/-- Model of `fmt.Sprintf` restricted to the verb-free fragment plus
the default verb: a literal `%%` prints `%`, a `%v` prints the next
operand, and every other character is copied.  The claims below only
exercise the empty format string, for which `logWithCallerInfo` never
reaches `fmt.Sprintf` at all. -/
def sprintfAux : List Char → List GoVal → List Char
  | [], _ => []
  | '%' :: '%' :: rest, args => '%' :: sprintfAux rest args
  | '%' :: 'v' :: rest, a :: args => a.format.toList ++ sprintfAux rest args
  | c :: rest, args => c :: sprintfAux rest args

def sprintf (format : String) (v : List GoVal) : String :=
  String.mk (sprintfAux format.toList v)

/-- The message text computed inside `logWithCallerInfo` (logger.go,
lines 139-145): `fmt.Sprint(v...)` when the format string is empty,
`fmt.Sprintf(format, v...)` otherwise. -/
def buildMessage (format : String) (v : List GoVal) : String :=
  if format = "" then sprint v else sprintf format v

/-! ### The path/filepath fragment used by logger.go -/

/-- Split a character list at the last occurrence of `c`, returning the
parts strictly before and strictly after it, or `none` when `c` does not
occur. -/
def splitLastAux (c : Char) : List Char → Option (List Char × List Char)
  | [] => none
  | x :: xs =>
      match splitLastAux c xs with
      | some (b, a) => some (x :: b, a)
      | none => if x = c then some ([], xs) else none

def dropTrailingSlashChars (l : List Char) : List Char :=
  (l.reverse.dropWhile (fun c => c = '/')).reverse

/-- Model of `filepath.Split`: everything up to and including the final
slash, and the remainder. -/
def filepathSplit (p : String) : String × String :=
  match splitLastAux '/' p.toList with
  | none => ("", p)
  | some (b, a) => (String.mk (b ++ ['/']), String.mk a)

/-- Model of `filepath.Ext` as applied by logger.go to the final path
element: the suffix starting at the final dot, empty when there is no
dot. -/
def filepathExt (name : String) : String :=
  match splitLastAux '.' name.toList with
  | none => ""
  | some (_, a) => String.mk ('.' :: a)

/-- Model of `filepath.Dir` on the slash-separated paths logger.go
handles: the part before the last slash with trailing slashes cleaned,
`"."` when there is no slash, `"/"` for root-anchored single elements. -/
def filepathDir (p : String) : String :=
  match splitLastAux '/' p.toList with
  | none => "."
  | some (b, _) =>
      if b = [] then "/" else String.mk (dropTrailingSlashChars b)

/-- Model of `filepath.Base` on slash-separated paths: the last element
after dropping trailing slashes, `"."` for the empty path, `"/"` for
all-slash paths. -/
def filepathBase (p : String) : String :=
  if p = "" then "."
  else
    match dropTrailingSlashChars p.toList with
    | [] => "/"
    | q =>
        match splitLastAux '/' q with
        | none => String.mk q
        | some (_, a) => String.mk a

/-- Model of `strings.TrimSuffix`. -/
def trimSuffix (s suffix : String) : String :=
  if suffix.toList.isSuffixOf s.toList then
    String.mk (s.toList.take (s.toList.length - suffix.toList.length))
  else s

/-- Model of `filepath.Join` on two elements, as logger.go uses it: the
directory part (possibly carrying a trailing slash from
`filepath.Split`) joined with a file name, with the doubled slash
cleaned. -/
def filepathJoin (dir file : String) : String :=
  if dir = "" then file
  else
    match dropTrailingSlashChars dir.toList with
    | [] => "/" ++ file
    | d => String.mk d ++ "/" ++ file

/-! ### Timestamps

logger.go formats the local clock with three layouts: `log`'s header
date `2006/01/02`, header time `15:04:05`, and the rotation stamp
`20060102-150405`. -/

structure Timestamp where
  year : Nat
  month : Nat
  day : Nat
  hour : Nat
  minute : Nat
  second : Nat
deriving DecidableEq

def pad2 (n : Nat) : String := if n < 10 then "0" ++ toString n else toString n

def pad4 (n : Nat) : String :=
  if n < 10 then "000" ++ toString n
  else if n < 100 then "00" ++ toString n
  else if n < 1000 then "0" ++ toString n
  else toString n

/-- The `log` package header date, layout `2006/01/02`. -/
def dateStr (ts : Timestamp) : String :=
  pad4 ts.year ++ "/" ++ pad2 ts.month ++ "/" ++ pad2 ts.day

/-- The `log` package header time, layout `15:04:05`. -/
def timeStr (ts : Timestamp) : String :=
  pad2 ts.hour ++ ":" ++ pad2 ts.minute ++ ":" ++ pad2 ts.second

/-- The rotation stamp `time.Now().Format("20060102-150405")`
(logger.go line 222). -/
def formatTimestamp (ts : Timestamp) : String :=
  pad4 ts.year ++ pad2 ts.month ++ pad2 ts.day ++ "-" ++
    pad2 ts.hour ++ pad2 ts.minute ++ pad2 ts.second

/-! ### Severity levels and the per-level loggers -/

def LevelDebug : Nat := 0
def LevelInfo : Nat := 1
def LevelWarning : Nat := 2
def LevelError : Nat := 3
def LevelFatal : Nat := 4

/-- The `log.New` tag of the logger `getLogger` selects for a level
(logger.go lines 89-93 and 111-126); an out-of-range level falls back to
the info logger. -/
def loggerTag : Nat → String
  | 0 => "[DEBUG] "
  | 1 => "[INFO] "
  | 2 => "[WARN] "
  | 3 => "[ERROR] "
  | 4 => "[FATAL] "
  | _ => "[INFO] "

/-! ### The dispatcher logWithCallerInfo

`logWithCallerInfo` (logger.go lines 129-153) drops the call when
`level < currentLevel`.  Otherwise it resolves `runtime.Caller(2)` (the
original call site two frames up) and hands
`"<basename>:<line>: <message>"` to the chosen `log.Logger`.  That
logger was built with flags `Ldate | Ltime | Lshortfile`, so the `log`
package itself prepends the tag, the date, the time, and the file and
line of logWithCallerInfo's own `Printf` call, which is in `logger.go`.
The model returns the produced line without its trailing newline, or
`none` when the call is filtered out. -/

structure CallerInfo where
  file : String
  line : Nat
deriving DecidableEq

/-- The `logger.go` line at which logWithCallerInfo invokes `Printf`
when the caller was resolved: line 141 on the empty-format branch, line
144 on the format branch.  `Lshortfile` stamps this line into the
output. -/
def printfLineNo (format : String) : Nat := if format = "" then 141 else 144

/-- The `logger.go` line of the fallback `Print`/`Printf` call used when
`runtime.Caller` fails: line 148 or 150. -/
def fallbackLineNo (format : String) : Nat := if format = "" then 148 else 150

def logWithCallerInfo (curLevel level : Nat) (format : String) (v : List GoVal)
    (caller : Option CallerInfo) (ts : Timestamp) : Option String :=
  if level < curLevel then none
  else
    match caller with
    | some c =>
        some (loggerTag level ++ dateStr ts ++ " " ++ timeStr ts ++ " " ++ "logger.go" ++ ":" ++
          toString (printfLineNo format) ++ ": " ++ filepathBase c.file ++ ":" ++
          toString c.line ++ ": " ++ buildMessage format v)
    | none =>
        some (loggerTag level ++ dateStr ts ++ " " ++ timeStr ts ++ " " ++ "logger.go" ++ ":" ++
          toString (fallbackLineNo format) ++ ": " ++ buildMessage format v)

/-! ### The ten public leveled operations

Each wrapper passes its own level constant; the unformatted variants
pass the empty format string (logger.go lines 156-205).  `Fatal` and
`Fatalf` additionally call `os.Exit(1)`, modelled as the paired exit
code; the process termination itself is outside the embedding. -/

def Debug (curLevel : Nat) (v : List GoVal) (c : Option CallerInfo) (ts : Timestamp) :
    Option String :=
  logWithCallerInfo curLevel LevelDebug "" v c ts

def Debugf (curLevel : Nat) (format : String) (v : List GoVal) (c : Option CallerInfo)
    (ts : Timestamp) : Option String :=
  logWithCallerInfo curLevel LevelDebug format v c ts

def Info (curLevel : Nat) (v : List GoVal) (c : Option CallerInfo) (ts : Timestamp) :
    Option String :=
  logWithCallerInfo curLevel LevelInfo "" v c ts

def Infof (curLevel : Nat) (format : String) (v : List GoVal) (c : Option CallerInfo)
    (ts : Timestamp) : Option String :=
  logWithCallerInfo curLevel LevelInfo format v c ts

def Warning (curLevel : Nat) (v : List GoVal) (c : Option CallerInfo) (ts : Timestamp) :
    Option String :=
  logWithCallerInfo curLevel LevelWarning "" v c ts

def Warningf (curLevel : Nat) (format : String) (v : List GoVal) (c : Option CallerInfo)
    (ts : Timestamp) : Option String :=
  logWithCallerInfo curLevel LevelWarning format v c ts

def Error (curLevel : Nat) (v : List GoVal) (c : Option CallerInfo) (ts : Timestamp) :
    Option String :=
  logWithCallerInfo curLevel LevelError "" v c ts

def Errorf (curLevel : Nat) (format : String) (v : List GoVal) (c : Option CallerInfo)
    (ts : Timestamp) : Option String :=
  logWithCallerInfo curLevel LevelError format v c ts

def Fatal (curLevel : Nat) (v : List GoVal) (c : Option CallerInfo) (ts : Timestamp) :
    Option String × Nat :=
  (logWithCallerInfo curLevel LevelFatal "" v c ts, 1)

def Fatalf (curLevel : Nat) (format : String) (v : List GoVal) (c : Option CallerInfo)
    (ts : Timestamp) : Option String × Nat :=
  (logWithCallerInfo curLevel LevelFatal format v c ts, 1)

/-! ### Filesystem, handles, and the package-level mutable state

`World` models the parts of the operating system logger.go touches:
file contents (an association list from path to content, first entry
wins), the set of existing directories, a table of `os.File` handles
(each remembering its `Name()` and whether it is still open), and three
boolean oracles fixing the outcome of `os.MkdirAll`, `os.OpenFile`, and
`os.Rename`.  `LoggerState` models the package-level variables: the
threshold `currentLevel`, the `logFile` pointer (a handle id, `none` for
the Go nil), and the writer set every per-level logger currently points
at. -/

structure HandleInfo where
  name : String
  isOpen : Bool
deriving DecidableEq

structure World where
  files : List (String × String)
  dirs : List String
  handles : List (Nat × HandleInfo)
  nextId : Nat
  mkdirOk : Bool
  openOk : Bool
  renameOk : Bool
deriving DecidableEq

inductive Writer where
  | stdout : Writer
  | file : Nat → Writer
deriving DecidableEq

structure LoggerState where
  currentLevel : Nat
  logFile : Option Nat
  output : List Writer
deriving DecidableEq

def fsGet : List (String × String) → String → Option String
  | [], _ => none
  | e :: rest, p => if e.1 = p then some e.2 else fsGet rest p

def fsErase : List (String × String) → String → List (String × String)
  | [], _ => []
  | e :: rest, p => if e.1 = p then fsErase rest p else e :: fsErase rest p

def fsSet (fs : List (String × String)) (p v : String) : List (String × String) :=
  (p, v) :: fsErase fs p

def handleGet : List (Nat × HandleInfo) → Nat → Option HandleInfo
  | [], _ => none
  | e :: rest, h => if e.1 = h then some e.2 else handleGet rest h

/-- The per-entry effect of `os.File.Close` on the handle table. -/
def closeFn (h : Nat) (e : Nat × HandleInfo) : Nat × HandleInfo :=
  if e.1 = h then (e.1, ⟨e.2.name, false⟩) else e

/-- `logFile.Close()`: mark the handle closed; a close error (for
instance on an already-closed handle) is swallowed, so no error is
modelled. -/
def closeHandle (w : World) (h : Nat) : World :=
  { w with handles := w.handles.map (closeFn h) }

/-- `logFile.Name()`: the name the handle was opened with. -/
def handleNameOf (w : World) (h : Nat) : String :=
  match handleGet w.handles h with
  | some i => i.name
  | none => ""

/-- `os.Rename(old, new)` on the content map: move the entry. -/
def osRename (fs : List (String × String)) (old new : String) : List (String × String) :=
  match fsGet fs old with
  | none => fs
  | some c => fsSet (fsErase fs old) new c

/-- Append bytes to the file a handle's name designates. -/
def appendAt (fs : List (String × String)) (p l : String) : List (String × String) :=
  fsSet fs p ((fsGet fs p).getD "" ++ l)

/-- One step of `io.MultiWriter`: stdout absorbs everything; a file
writer appends through its handle when the handle is still open, and a
write to a closed handle fails, which the `log` package swallows. -/
def writeOne (l : String) (acc : World) (wr : Writer) : World :=
  match wr with
  | .stdout => acc
  | .file h =>
      match handleGet acc.handles h with
      | some i => if i.isOpen then { acc with files := appendAt acc.files i.name l } else acc
      | none => acc

/-- A `log.Logger.Printf` write through the current writer set. -/
def writeThrough (s : LoggerState) (w : World) (l : String) : World :=
  s.output.foldl (writeOne l) w

/-! ### InitLogger (logger.go lines 50-101) -/

/-- The `os.OpenFile(logFileName, O_APPEND|O_CREATE|O_WRONLY, 0644)`
step of `InitLogger` and the writer rebuild that follows it.  On
failure, the Go assignment `logFile, err = os.OpenFile(...)` stores the
nil file into the package-level `logFile`. -/
def initOpenFile (logFileName : String) (s : LoggerState) (w : World) :
    Except String Unit × LoggerState × World :=
  if w.openOk = true then
    (Except.ok (),
     { s with logFile := some w.nextId, output := [Writer.stdout, Writer.file w.nextId] },
     { w with files :=
                match fsGet w.files logFileName with
                | some _ => w.files
                | none => fsSet w.files logFileName "",
              handles := (w.nextId, ⟨logFileName, true⟩) :: w.handles,
              nextId := w.nextId + 1 })
  else
    (Except.error "failed to open log file", { s with logFile := none }, w)

/-- `InitLogger(level, logToFile, logFileName)`: stores the level first,
then (when file logging is requested and the name is nonempty) creates
the parent directory if `os.Stat` says it does not exist, opens the log
file for append, and rebuilds the writer set; without file logging the
writer set becomes console-only. -/
def InitLogger (level : Nat) (logToFile : Bool) (logFileName : String)
    (s : LoggerState) (w : World) : Except String Unit × LoggerState × World :=
  if logToFile = true ∧ ¬ logFileName = "" then
    if w.dirs.contains (filepathDir logFileName) = true then
      initOpenFile logFileName { s with currentLevel := level } w
    else if w.mkdirOk = true then
      initOpenFile logFileName { s with currentLevel := level }
        { w with dirs := filepathDir logFileName :: w.dirs }
    else
      (Except.error "failed to create logs directory", { s with currentLevel := level }, w)
  else
    (Except.ok (), { s with currentLevel := level, output := [Writer.stdout] }, w)

/-! ### CloseLogger (logger.go lines 104-108) -/

/-- `CloseLogger()`: close the handle when the `logFile` pointer is
non-nil.  The pointer itself is not cleared, and the `Close` error is
discarded. -/
def CloseLogger (s : LoggerState) (w : World) : LoggerState × World :=
  match s.logFile with
  | none => (s, w)
  | some h => (s, closeHandle w h)

/-! ### RotateLogFile (logger.go lines 208-251) -/

/-- The archived name `RotateLogFile` derives: the timestamp is inserted
between the base name and the extension of the original path. -/
def rotatedName (name : String) (ts : Timestamp) : String :=
  let pr := filepathSplit name
  let ext := filepathExt pr.2
  let baseFilename := trimSuffix pr.2 ext
  filepathJoin pr.1 (baseFilename ++ "-" ++ formatTimestamp ts ++ ext)

/-- The call site of the `Info("Log file rotated to", newPath)` call at
the end of `RotateLogFile`, as `runtime.Caller(2)` resolves it. -/
def rotateLogCallSite : CallerInfo := ⟨"logger.go", 249⟩

/-- The final `Info("Log file rotated to", newPath)` of `RotateLogFile`:
when the info level passes the threshold, the produced line goes through
the just-rebuilt writer set (console plus the new file). -/
def emitInfoRotated (ts : Timestamp) (s : LoggerState) (w : World) (newPath : String) : World :=
  match logWithCallerInfo s.currentLevel LevelInfo ""
      [GoVal.str "Log file rotated to", GoVal.str newPath] (some rotateLogCallSite) ts with
  | some line => writeThrough s w (line ++ "\n")
  | none => w

/-- `RotateLogFile()`: nil `logFile` is an immediate success; otherwise
close the handle, derive the timestamped name, rename the old file,
truncate-open a new file at the original path (the Go assignment stores
nil into `logFile` when that open fails), re-point every logger at
console plus the new file, and log the rotation at info level. -/
def RotateLogFile (ts : Timestamp) (s : LoggerState) (w : World) :
    Except String Unit × LoggerState × World :=
  match s.logFile with
  | none => (Except.ok (), s, w)
  | some h =>
    let w1 := closeHandle w h
    let name := handleNameOf w1 h
    let newPath := rotatedName name ts
    if w1.renameOk = true ∧ (fsGet w1.files name).isSome = true then
      let w2 := { w1 with files := osRename w1.files name newPath }
      if w2.openOk = true then
        let h2 := w2.nextId
        let w3 := { w2 with files := fsSet w2.files name "",
                            handles := (h2, ⟨name, true⟩) :: w2.handles,
                            nextId := w2.nextId + 1 }
        let s2 := { s with logFile := some h2, output := [Writer.stdout, Writer.file h2] }
        (Except.ok (), s2, emitInfoRotated ts s2 w3 newPath)
      else
        (Except.error "failed to open new log file", { s with logFile := none }, w2)
    else
      (Except.error "failed to rename log file", s, w1)

/-! ### Definitions taken from the specification's words

These restate what the spec claims, for comparison against the
definitions above, which were translated from logger.go. -/

/-- Modelled from the spec: the claimed log line form
`<prefix> <date> <time> <basename>:<line>: <message>`, where the
basename and line identify the original call site. -/
def specLogLine (tag date time base : String) (line : Nat) (msg : String) : String :=
  tag ++ " " ++ date ++ " " ++ time ++ " " ++ base ++ ":" ++ toString line ++ ": " ++ msg

/-- Modelled from the spec: the arguments' string forms concatenated
with a single space between each pair of adjacent arguments. -/
def specSpaceJoin : List GoVal → String
  | [] => ""
  | [x] => x.format
  | x :: y :: rest => x.format ++ " " ++ specSpaceJoin (y :: rest)

/-- The line form the code actually produces for a resolved call site:
the spec's form with one extra location segment — the `log` package's
`Lshortfile` stamp, which names logWithCallerInfo's own `Printf` line
inside `logger.go` — inserted between the clock and the call-site
segment.  The tag carries its trailing space, as `log.New` received
it. -/
def amendedLogLine (tag date time helperBase : String) (helperLine : Nat) (base : String)
    (callLine : Nat) (msg : String) : String :=
  tag ++ date ++ " " ++ time ++ " " ++ helperBase ++ ":" ++ toString helperLine ++ ": " ++
    base ++ ":" ++ toString callLine ++ ": " ++ msg

/-! ### A concrete demo scenario

The repository's `demo.go` run: initialize at Debug with file
`logs/demo.log` on a fresh filesystem where every syscall succeeds, plus
failure worlds for the error-path claims. -/

def demoTs : Timestamp := ⟨2023, 3, 8, 15, 30, 45⟩

def demoWorld : World := ⟨[], [], [], 0, true, true, true⟩

/-- A world whose directory creation fails. -/
def noMkdirWorld : World := ⟨[], [], [], 0, false, true, true⟩

/-- The logger's start state: console-only, level Info, nil logFile. -/
def demoState : LoggerState := ⟨LevelInfo, none, [Writer.stdout]⟩

def demoInit := InitLogger LevelDebug true "logs/demo.log" demoState demoWorld

def demoOpenState : LoggerState := demoInit.2.1

def demoOpenWorld : World := demoInit.2.2

def demoClosed := CloseLogger demoOpenState demoOpenWorld

/-- A world holding an open handle 0 on `logs/demo.log` whose rename
syscall fails. -/
def renameFailWorld : World :=
  ⟨[("logs/demo.log", "x")], ["logs"], [(0, ⟨"logs/demo.log", true⟩)], 1, true, true, false⟩

/-- A logger state whose writer set is console plus handle 0. -/
def fileOpenState : LoggerState := ⟨LevelInfo, some 0, [Writer.stdout, Writer.file 0]⟩

end Logger

namespace Logger

/-! ## Helper lemmas about the state model -/

theorem closeHandle_files (w : World) (h : Nat) : (closeHandle w h).files = w.files := rfl

theorem closeHandle_renameOk (w : World) (h : Nat) :
    (closeHandle w h).renameOk = w.renameOk := rfl

theorem closeHandle_openOk (w : World) (h : Nat) : (closeHandle w h).openOk = w.openOk := rfl

theorem closeHandle_nextId (w : World) (h : Nat) : (closeHandle w h).nextId = w.nextId := rfl

theorem closeHandle_dirs (w : World) (h : Nat) : (closeHandle w h).dirs = w.dirs := rfl

theorem closeHandle_mkdirOk (w : World) (h : Nat) :
    (closeHandle w h).mkdirOk = w.mkdirOk := rfl

theorem closeHandle_handles (w : World) (h : Nat) :
    (closeHandle w h).handles = w.handles.map (closeFn h) := rfl

theorem handleGet_map_closeFn (h : Nat) (l : List (Nat × HandleInfo)) :
    handleGet (l.map (closeFn h)) h
      = (handleGet l h).map (fun i => HandleInfo.mk i.name false) := by
  induction l with
  | nil => rfl
  | cons e rest ih =>
      by_cases he : e.1 = h
      · simp [closeFn, handleGet, he]
      · simp [closeFn, handleGet, he, ih]

theorem map_closeFn_idem (h : Nat) (l : List (Nat × HandleInfo)) :
    (l.map (closeFn h)).map (closeFn h) = l.map (closeFn h) := by
  induction l with
  | nil => rfl
  | cons e rest ih =>
      by_cases he : e.1 = h
      · simp [closeFn, he, ih]
      · simp [closeFn, he, ih]

theorem closeHandle_idem (w : World) (h : Nat) :
    closeHandle (closeHandle w h) h = closeHandle w h := by
  simp only [closeHandle]
  rw [map_closeFn_idem]

theorem fsGet_fsErase_ne (fs : List (String × String)) (p q : String) (hq : ¬ q = p) :
    fsGet (fsErase fs p) q = fsGet fs q := by
  induction fs with
  | nil => rfl
  | cons e rest ih =>
      by_cases he : e.1 = p
      · have hp : ¬ p = q := fun hpq => hq hpq.symm
        simp [fsErase, fsGet, he, hp, ih]
      · simp [fsErase, fsGet, he, ih]

theorem fsGet_fsSet_self (fs : List (String × String)) (p v : String) :
    fsGet (fsSet fs p v) p = some v := by
  simp [fsSet, fsGet]

theorem fsGet_fsSet_ne (fs : List (String × String)) (p v q : String) (hq : ¬ q = p) :
    fsGet (fsSet fs p v) q = fsGet fs q := by
  have hp : ¬ p = q := fun hpq => hq hpq.symm
  simp [fsSet, fsGet, hp, fsGet_fsErase_ne fs p q hq]

theorem appendAt_get_self (fs : List (String × String)) (p l : String) :
    fsGet (appendAt fs p l) p = some ((fsGet fs p).getD "" ++ l) := by
  simp [appendAt, fsGet_fsSet_self]

theorem appendAt_get_ne (fs : List (String × String)) (p l q : String) (hq : ¬ q = p) :
    fsGet (appendAt fs p l) q = fsGet fs q := by
  simp [appendAt, fsGet_fsSet_ne fs p _ q hq]

theorem writeOne_handles (l : String) (acc : World) (wr : Writer) :
    (writeOne l acc wr).handles = acc.handles := by
  cases wr with
  | stdout => rfl
  | file h =>
      simp only [writeOne]
      split
      · split <;> rfl
      · rfl

theorem foldl_writeOne_handles (l : String) (out : List Writer) (acc : World) :
    (out.foldl (writeOne l) acc).handles = acc.handles := by
  induction out generalizing acc with
  | nil => rfl
  | cons wr rest ih => rw [List.foldl_cons, ih, writeOne_handles]

theorem writeThrough_handles (s : LoggerState) (w : World) (l : String) :
    (writeThrough s w l).handles = w.handles :=
  foldl_writeOne_handles l s.output w

theorem writeThrough_pair (s : LoggerState) (w : World) (h : Nat) (p l : String)
    (ho : s.output = [Writer.stdout, Writer.file h])
    (hh : handleGet w.handles h = some ⟨p, true⟩) :
    (writeThrough s w l).files = appendAt w.files p l := by
  rw [writeThrough, ho]
  simp [List.foldl, writeOne, hh]

theorem writeThrough_closed (s : LoggerState) (w : World) (h : Nat) (p l : String)
    (ho : s.output = [Writer.stdout, Writer.file h])
    (hh : handleGet w.handles h = some ⟨p, false⟩) :
    writeThrough s w l = w := by
  rw [writeThrough, ho]
  simp [List.foldl, writeOne, hh]

theorem emitInfoRotated_handles (ts : Timestamp) (s : LoggerState) (w : World) (np : String) :
    (emitInfoRotated ts s w np).handles = w.handles := by
  unfold emitInfoRotated
  split
  · exact writeThrough_handles _ _ _
  · rfl

theorem emitInfoRotated_files_ne (ts : Timestamp) (s : LoggerState) (w : World) (np : String)
    (h2 : Nat) (p : String)
    (ho : s.output = [Writer.stdout, Writer.file h2])
    (hh : handleGet w.handles h2 = some ⟨p, true⟩)
    (q : String) (hq : ¬ q = p) :
    fsGet (emitInfoRotated ts s w np).files q = fsGet w.files q := by
  unfold emitInfoRotated
  split
  · rw [writeThrough_pair s w h2 p _ ho hh, appendAt_get_ne _ _ _ _ hq]
  · rfl

/-- The successful path of `RotateLogFile`, for a world whose handle
table knows the rotated handle and whose rename and open syscalls
succeed: the call succeeds, the old content sits at the timestamped
name, the `logFile` pointer and writer set hold a fresh open handle on
the original path, and a subsequent write through the writer set changes
only the original path's file. -/
theorem rotate_success (ts : Timestamp) (s : LoggerState) (w : World)
    (h : Nat) (p : String) (b : Bool) (content : String)
    (hlf : s.logFile = some h)
    (hh : handleGet w.handles h = some ⟨p, b⟩)
    (hrn : w.renameOk = true)
    (hop : w.openOk = true)
    (hc : fsGet w.files p = some content)
    (hne : ¬ rotatedName p ts = p) :
    (RotateLogFile ts s w).1 = Except.ok ()
    ∧ fsGet (RotateLogFile ts s w).2.2.files (rotatedName p ts) = some content
    ∧ (RotateLogFile ts s w).2.1.logFile = some w.nextId
    ∧ (RotateLogFile ts s w).2.1.output = [Writer.stdout, Writer.file w.nextId]
    ∧ handleGet (RotateLogFile ts s w).2.2.handles w.nextId = some ⟨p, true⟩
    ∧ (∀ l q, ¬ q = p →
        fsGet (writeThrough (RotateLogFile ts s w).2.1 (RotateLogFile ts s w).2.2 l).files q
          = fsGet (RotateLogFile ts s w).2.2.files q)
    ∧ (∀ l, fsGet (writeThrough (RotateLogFile ts s w).2.1 (RotateLogFile ts s w).2.2 l).files p
          = some ((fsGet (RotateLogFile ts s w).2.2.files p).getD "" ++ l)) := by
  have hname : handleNameOf (closeHandle w h) h = p := by
    simp [handleNameOf, closeHandle_handles, handleGet_map_closeFn, hh]
  have key : RotateLogFile ts s w =
      (Except.ok (),
       { s with logFile := some w.nextId, output := [Writer.stdout, Writer.file w.nextId] },
       emitInfoRotated ts
         { s with logFile := some w.nextId, output := [Writer.stdout, Writer.file w.nextId] }
         { w with files := fsSet (fsSet (fsErase w.files p) (rotatedName p ts) content) p "",
                  handles := (w.nextId, ⟨p, true⟩) :: w.handles.map (closeFn h),
                  nextId := w.nextId + 1 }
         (rotatedName p ts)) := by
    simp [RotateLogFile, hlf, hname, closeHandle_renameOk, closeHandle_files,
      closeHandle_openOk, closeHandle_nextId, closeHandle_handles, closeHandle_dirs,
      closeHandle_mkdirOk, hrn, hop, hc, osRename]
  rw [key]
  have hh2 : handleGet ((w.nextId, (⟨p, true⟩ : HandleInfo)) :: w.handles.map (closeFn h))
      w.nextId = some ⟨p, true⟩ := by
    simp [handleGet]
  refine ⟨rfl, ?_, rfl, rfl, ?_, ?_, ?_⟩
  · rw [emitInfoRotated_files_ne _ _ _ _ w.nextId p rfl hh2 _ hne]
    rw [fsGet_fsSet_ne _ _ _ _ hne, fsGet_fsSet_self]
  · rw [emitInfoRotated_handles]
    exact hh2
  · intro l q hq
    rw [writeThrough_pair _ _ w.nextId p l rfl
      (by rw [emitInfoRotated_handles]; exact hh2)]
    exact appendAt_get_ne _ _ _ _ hq
  · intro l
    rw [writeThrough_pair _ _ w.nextId p l rfl
      (by rw [emitInfoRotated_handles]; exact hh2)]
    exact appendAt_get_self _ _ _

/-! ## The claims -/

/-- Claim C1: for every severity S and configured threshold T, a leveled
logging call at severity S produces output iff S ≥ T under the ordering
Debug < Info < Warning < Error < Fatal; when S < T the call is a no-op
(the dispatcher returns without producing a line). -/
theorem c1_level_filter (curLevel level : Nat) (format : String) (v : List GoVal)
    (caller : Option CallerInfo) (ts : Timestamp) :
    ((logWithCallerInfo curLevel level format v caller ts).isSome = true ↔ curLevel ≤ level)
    ∧ LevelDebug < LevelInfo ∧ LevelInfo < LevelWarning ∧ LevelWarning < LevelError
    ∧ LevelError < LevelFatal := by
  refine ⟨?_, by decide, by decide, by decide, by decide⟩
  unfold logWithCallerInfo
  by_cases hlt : level < curLevel
  · rw [if_pos hlt]
    simp
    omega
  · rw [if_neg hlt]
    cases caller <;> simp <;> omega

/-- Claim C2 counterexample: with directory creation failing, a logger
whose level was Info is initialized at level Debug; InitLogger returns
an error, yet the observable configuration reflects the failed
initialization — the current level has changed to the requested
Debug. -/
theorem c2_counterexample :
    (InitLogger LevelDebug true "logs/demo.log" demoState noMkdirWorld).1
        = Except.error "failed to create logs directory"
    ∧ ¬ (InitLogger LevelDebug true "logs/demo.log" demoState noMkdirWorld).2.1.currentLevel
        = demoState.currentLevel :=
  ⟨rfl, by decide⟩

/-- Claim C2 (amended): a failed InitLogger returns an error and never
rebuilds the writer set, so the sink stays exactly what it was (a
console-only logger stays console-only); but the current level has
already been overwritten with the requested level before the failing
filesystem step. -/
theorem c2_amended_failed_init (level : Nat) (logToFile : Bool) (logFileName : String)
    (s : LoggerState) (w : World) (e : String)
    (h : (InitLogger level logToFile logFileName s w).1 = Except.error e) :
    (InitLogger level logToFile logFileName s w).2.1.output = s.output
    ∧ (InitLogger level logToFile logFileName s w).2.1.currentLevel = level := by
  unfold InitLogger initOpenFile at h ⊢
  split_ifs at h ⊢ <;> simp_all

/-- Witness for c2_amended_failed_init: the concrete failed-mkdir
initialization. -/
theorem c2_amended_witness :
    (InitLogger LevelDebug true "logs/demo.log" demoState noMkdirWorld).1
        = Except.error "failed to create logs directory"
    ∧ ((InitLogger LevelDebug true "logs/demo.log" demoState noMkdirWorld).2.1.output
          = demoState.output
        ∧ (InitLogger LevelDebug true "logs/demo.log" demoState noMkdirWorld).2.1.currentLevel
          = LevelDebug) :=
  ⟨rfl, c2_amended_failed_init LevelDebug true "logs/demo.log" demoState noMkdirWorld
    "failed to create logs directory" rfl⟩

/-- Claim C3 counterexample: the emitted line is not of the spec's form
with the call site as its only location segment — the log package's
Lshortfile flag additionally stamps logWithCallerInfo's own Printf
location, logger.go:141, into every line. -/
theorem c3_counterexample :
    logWithCallerInfo LevelDebug LevelDebug "" [GoVal.str "hello"]
        (some ⟨"/app/demo.go", 20⟩) demoTs
      = some "[DEBUG] 2023/03/08 15:30:45 logger.go:141: demo.go:20: hello"
    ∧ ¬ "[DEBUG] 2023/03/08 15:30:45 logger.go:141: demo.go:20: hello"
        = specLogLine "[DEBUG]" "2023/03/08" "15:30:45" "demo.go" 20 "hello" :=
  ⟨rfl, by decide⟩

/-- Claim C3 (amended): every emitted call-site line, identical for file
and console, has the spec's form with one extra location segment: tag,
date, time, then logger.go:line of the dispatcher's own Printf call
(stamped by the Lshortfile flag), then the basename:line of the
original call site, then the message; the tag is always one of the five
severity tags. -/
theorem c3_amended_line_form (curLevel level : Nat) (format : String) (v : List GoVal)
    (c : CallerInfo) (ts : Timestamp) (h : curLevel ≤ level) :
    logWithCallerInfo curLevel level format v (some c) ts
      = some (amendedLogLine (loggerTag level) (dateStr ts) (timeStr ts) "logger.go"
          (printfLineNo format) (filepathBase c.file) c.line (buildMessage format v))
    ∧ loggerTag level ∈ ["[DEBUG] ", "[INFO] ", "[WARN] ", "[ERROR] ", "[FATAL] "] := by
  constructor
  · unfold logWithCallerInfo
    rw [if_neg (by omega)]
    rfl
  · rcases level with _ | _ | _ | _ | _ | n <;> simp [loggerTag]

/-- Witness for c3_amended_line_form: an info call over a debug
threshold. -/
theorem c3_amended_witness :
    LevelDebug ≤ LevelInfo
    ∧ (logWithCallerInfo LevelDebug LevelInfo "" [GoVal.str "y"] (some ⟨"demo.go", 7⟩) demoTs
        = some (amendedLogLine (loggerTag LevelInfo) (dateStr demoTs) (timeStr demoTs)
            "logger.go" (printfLineNo "") (filepathBase "demo.go") 7
            (buildMessage "" [GoVal.str "y"]))
        ∧ loggerTag LevelInfo ∈ ["[DEBUG] ", "[INFO] ", "[WARN] ", "[ERROR] ", "[FATAL] "]) :=
  ⟨by decide,
   c3_amended_line_form LevelDebug LevelInfo "" [GoVal.str "y"] ⟨"demo.go", 7⟩ demoTs
     (by decide)⟩

/-- Claim C4 counterexample: the unformatted variant hands the argument
list to fmt.Sprint, which concatenates two adjacent string arguments
without a separating space: Debug on the strings "a", "b" emits the
message "ab", not the space-joined "a b". -/
theorem c4_counterexample :
    Debug LevelDebug [GoVal.str "a", GoVal.str "b"] (some ⟨"demo.go", 5⟩) demoTs
      = some "[DEBUG] 2023/03/08 15:30:45 logger.go:141: demo.go:5: ab"
    ∧ ¬ sprint [GoVal.str "a", GoVal.str "b"]
        = specSpaceJoin [GoVal.str "a", GoVal.str "b"] :=
  ⟨rfl, by decide⟩

/-- Claim C4 (amended): the unformatted variant concatenates arguments
per fmt.Sprint — a single space separates two adjacent arguments only
when neither is a string; in particular, whenever no argument is a
string the produced message is exactly the space-joined concatenation
of the arguments' string forms. -/
theorem c4_amended_sprint_spacing (v : List GoVal)
    (h : ∀ x ∈ v, GoVal.isStr x = false) :
    buildMessage "" v = specSpaceJoin v := by
  unfold buildMessage
  rw [if_pos rfl]
  induction v with
  | nil => rfl
  | cons x rest ih =>
      cases rest with
      | nil => rfl
      | cons y rest2 =>
          have hx : GoVal.isStr x = false := h x (List.mem_cons_self x _)
          have hy : GoVal.isStr y = false :=
            h y (List.mem_cons_of_mem x (List.mem_cons_self y _))
          have ih2 : sprint (y :: rest2) = specSpaceJoin (y :: rest2) :=
            ih (fun z hz => h z (List.mem_cons_of_mem x hz))
          simp [sprint, specSpaceJoin, hx, hy, ih2]

/-- Witness for c4_amended_sprint_spacing at two non-string
arguments. -/
theorem c4_amended_witness :
    (∀ x ∈ [GoVal.other "1", GoVal.other "2"], GoVal.isStr x = false)
    ∧ buildMessage "" [GoVal.other "1", GoVal.other "2"]
        = specSpaceJoin [GoVal.other "1", GoVal.other "2"] :=
  ⟨by decide, c4_amended_sprint_spacing [GoVal.other "1", GoVal.other "2"] (by decide)⟩

/-- Claim C5: a successful rotation on an open file handle archives the
old file's content under the name obtained by inserting the
YYYYMMDD-HHMMSS timestamp between base name and extension (concretely,
logs/demo.log becomes logs/demo-20230308-153045.log), re-points the
writer set at a fresh open handle on the original path, and a
subsequent write lands only at the original path, leaving the archived
file untouched. -/
theorem c5_rotate_archives_and_reopens (ts : Timestamp) (s : LoggerState) (w : World)
    (h : Nat) (p : String) (content : String)
    (hlf : s.logFile = some h)
    (hh : handleGet w.handles h = some ⟨p, true⟩)
    (hrn : w.renameOk = true)
    (hop : w.openOk = true)
    (hc : fsGet w.files p = some content)
    (hne : ¬ rotatedName p ts = p) :
    rotatedName "logs/demo.log" demoTs = "logs/demo-20230308-153045.log"
    ∧ (RotateLogFile ts s w).1 = Except.ok ()
    ∧ fsGet (RotateLogFile ts s w).2.2.files (rotatedName p ts) = some content
    ∧ (RotateLogFile ts s w).2.1.logFile = some w.nextId
    ∧ (RotateLogFile ts s w).2.1.output = [Writer.stdout, Writer.file w.nextId]
    ∧ handleGet (RotateLogFile ts s w).2.2.handles w.nextId = some ⟨p, true⟩
    ∧ (∀ l q, ¬ q = p →
        fsGet (writeThrough (RotateLogFile ts s w).2.1 (RotateLogFile ts s w).2.2 l).files q
          = fsGet (RotateLogFile ts s w).2.2.files q)
    ∧ (∀ l, fsGet (writeThrough (RotateLogFile ts s w).2.1 (RotateLogFile ts s w).2.2 l).files p
          = some ((fsGet (RotateLogFile ts s w).2.2.files p).getD "" ++ l)) :=
  ⟨by decide, rotate_success ts s w h p true content hlf hh hrn hop hc hne⟩

/-- Witness for c5_rotate_archives_and_reopens: rotating the demo run's
open logger. -/
theorem c5_witness :
    (demoOpenState.logFile = some 0
      ∧ handleGet demoOpenWorld.handles 0 = some ⟨"logs/demo.log", true⟩
      ∧ demoOpenWorld.renameOk = true
      ∧ demoOpenWorld.openOk = true
      ∧ fsGet demoOpenWorld.files "logs/demo.log" = some ""
      ∧ ¬ rotatedName "logs/demo.log" demoTs = "logs/demo.log")
    ∧ fsGet (RotateLogFile demoTs demoOpenState demoOpenWorld).2.2.files
        (rotatedName "logs/demo.log" demoTs) = some "" :=
  ⟨⟨rfl, rfl, rfl, rfl, rfl, by decide⟩,
   (c5_rotate_archives_and_reopens demoTs demoOpenState demoOpenWorld 0 "logs/demo.log" ""
     rfl rfl rfl rfl rfl (by decide)).2.2.1⟩

/-- Claim C6: when the rename step fails, RotateLogFile aborts with an
error; the old handle is closed and not reopened, file contents are
unchanged (no new file at the original path), no handle is allocated,
the writer set is not rebuilt, and a subsequent write through the
(unchanged) writer set goes to the closed handle and changes
nothing. -/
theorem c6_rotate_rename_failure (ts : Timestamp) (s : LoggerState) (w : World)
    (h : Nat) (info : HandleInfo)
    (hlf : s.logFile = some h)
    (hh : handleGet w.handles h = some info)
    (hrn : w.renameOk = false) :
    (RotateLogFile ts s w).1 = Except.error "failed to rename log file"
    ∧ (RotateLogFile ts s w).2.1 = s
    ∧ (RotateLogFile ts s w).2.2.files = w.files
    ∧ (RotateLogFile ts s w).2.2.nextId = w.nextId
    ∧ handleGet (RotateLogFile ts s w).2.2.handles h = some ⟨info.name, false⟩
    ∧ (s.output = [Writer.stdout, Writer.file h] →
        ∀ l, writeThrough (RotateLogFile ts s w).2.1 (RotateLogFile ts s w).2.2 l
          = (RotateLogFile ts s w).2.2) := by
  have key : RotateLogFile ts s w
      = (Except.error "failed to rename log file", s, closeHandle w h) := by
    simp [RotateLogFile, hlf, closeHandle_renameOk, hrn]
  rw [key]
  have hcl : handleGet (closeHandle w h).handles h = some ⟨info.name, false⟩ := by
    simp [closeHandle_handles, handleGet_map_closeFn, hh]
  refine ⟨rfl, rfl, rfl, rfl, hcl, ?_⟩
  intro ho l
  exact writeThrough_closed s (closeHandle w h) h info.name l ho hcl

/-- Witness for c6_rotate_rename_failure: a rotation whose rename
syscall fails. -/
theorem c6_witness :
    (fileOpenState.logFile = some 0
      ∧ handleGet renameFailWorld.handles 0 = some ⟨"logs/demo.log", true⟩
      ∧ renameFailWorld.renameOk = false)
    ∧ (RotateLogFile demoTs fileOpenState renameFailWorld).1
        = Except.error "failed to rename log file"
    ∧ (RotateLogFile demoTs fileOpenState renameFailWorld).2.2.files
        = renameFailWorld.files :=
  ⟨⟨rfl, rfl, rfl⟩,
   (c6_rotate_rename_failure demoTs fileOpenState renameFailWorld 0 ⟨"logs/demo.log", true⟩
     rfl rfl rfl).1,
   (c6_rotate_rename_failure demoTs fileOpenState renameFailWorld 0 ⟨"logs/demo.log", true⟩
     rfl rfl rfl).2.2.1⟩

/-- Claim C7 counterexample: in the demo run, after CloseLogger the
file handle is closed, yet RotateLogFile does not behave as
console-only — it returns success and changes the filesystem (the
on-disk file is renamed and a new one is opened). -/
theorem c7_counterexample :
    (RotateLogFile demoTs demoClosed.1 demoClosed.2).1 = Except.ok ()
    ∧ ¬ (RotateLogFile demoTs demoClosed.1 demoClosed.2).2.2.files = demoClosed.2.files :=
  ⟨rfl, by decide⟩

/-- Claim C7 (amended): the handle follows Closed → Open (InitLogger
with logToFile) → Open' (Rotate) → closed handle (Close), and a logger
that was never file-initialized (nil logFile) gets the console-only
no-op Rotate; but CloseLogger leaves the package-level logFile pointer
set, so Rotate called after Close still archives the on-disk file under
the timestamped name and opens a fresh file, returning success. -/
theorem c7_amended_close_keeps_pointer (ts : Timestamp) (s : LoggerState) (w : World)
    (h : Nat) (p : String) (b : Bool) (content : String)
    (hlf : s.logFile = some h)
    (hh : handleGet w.handles h = some ⟨p, b⟩)
    (hrn : w.renameOk = true)
    (hop : w.openOk = true)
    (hc : fsGet w.files p = some content)
    (hne : ¬ rotatedName p ts = p) :
    (CloseLogger s w).1.logFile = some h
    ∧ (∀ s2 w2, s2.logFile = none → RotateLogFile ts s2 w2 = (Except.ok (), s2, w2))
    ∧ (RotateLogFile ts (CloseLogger s w).1 (CloseLogger s w).2).1 = Except.ok ()
    ∧ fsGet (RotateLogFile ts (CloseLogger s w).1 (CloseLogger s w).2).2.2.files
        (rotatedName p ts) = some content := by
  have hcl : CloseLogger s w = (s, closeHandle w h) := by
    simp [CloseLogger, hlf]
  rw [hcl]
  have hh2 : handleGet (closeHandle w h).handles h = some ⟨p, false⟩ := by
    simp [closeHandle_handles, handleGet_map_closeFn, hh]
  have hs := rotate_success ts s (closeHandle w h) h p false content hlf hh2
    (by rw [closeHandle_renameOk]; exact hrn)
    (by rw [closeHandle_openOk]; exact hop)
    (by rw [closeHandle_files]; exact hc) hne
  exact ⟨hlf, fun s2 w2 h2 => by simp [RotateLogFile, h2], hs.1, hs.2.1⟩

/-- Witness for c7_amended_close_keeps_pointer: the demo run. -/
theorem c7_amended_witness :
    (demoOpenState.logFile = some 0
      ∧ handleGet demoOpenWorld.handles 0 = some ⟨"logs/demo.log", true⟩
      ∧ demoOpenWorld.renameOk = true
      ∧ demoOpenWorld.openOk = true
      ∧ fsGet demoOpenWorld.files "logs/demo.log" = some ""
      ∧ ¬ rotatedName "logs/demo.log" demoTs = "logs/demo.log")
    ∧ (CloseLogger demoOpenState demoOpenWorld).1.logFile = some 0
    ∧ fsGet (RotateLogFile demoTs (CloseLogger demoOpenState demoOpenWorld).1
        (CloseLogger demoOpenState demoOpenWorld).2).2.2.files
        (rotatedName "logs/demo.log" demoTs) = some "" :=
  ⟨⟨rfl, rfl, rfl, rfl, rfl, by decide⟩,
   (c7_amended_close_keeps_pointer demoTs demoOpenState demoOpenWorld 0 "logs/demo.log" true
     "" rfl rfl rfl rfl rfl (by decide)).1,
   (c7_amended_close_keeps_pointer demoTs demoOpenState demoOpenWorld 0 "logs/demo.log" true
     "" rfl rfl rfl rfl rfl (by decide)).2.2.2⟩

/-- Claim C8: when no file handle is open because the logger was never
file-initialized (nil logFile), RotateLogFile is a no-op returning
success: the logger state and the whole world — files, directories,
handles — are returned untouched, so console-only output continues
unchanged. -/
theorem c8_rotate_nil_noop (ts : Timestamp) (s : LoggerState) (w : World)
    (h : s.logFile = none) :
    RotateLogFile ts s w = (Except.ok (), s, w) := by
  simp [RotateLogFile, h]

/-- Witness for c8_rotate_nil_noop: the never-initialized start
state. -/
theorem c8_witness :
    demoState.logFile = none
    ∧ RotateLogFile demoTs demoState demoWorld = (Except.ok (), demoState, demoWorld) :=
  ⟨rfl, c8_rotate_nil_noop demoTs demoState demoWorld rfl⟩

/-- Claim C9: CloseLogger closes the open handle when one is recorded,
surfaces no error by construction (its Go signature returns nothing and
the Close error is discarded), and is idempotent: a second call
produces exactly the same state and world. -/
theorem c9_close_idempotent (s : LoggerState) (w : World) :
    (∀ h info, s.logFile = some h → handleGet w.handles h = some info →
        handleGet ((CloseLogger s w).2).handles h = some ⟨info.name, false⟩)
    ∧ CloseLogger (CloseLogger s w).1 (CloseLogger s w).2 = CloseLogger s w := by
  constructor
  · intro h info hlf hh
    simp [CloseLogger, hlf, closeHandle_handles, handleGet_map_closeFn, hh]
  · cases hlf : s.logFile with
    | none => simp [CloseLogger, hlf]
    | some h => simp [CloseLogger, hlf, closeHandle_idem]

/-- Witness for c9_close_idempotent: closing the demo run's open
logger twice. -/
theorem c9_witness :
    (demoOpenState.logFile = some 0
      ∧ handleGet demoOpenWorld.handles 0 = some ⟨"logs/demo.log", true⟩)
    ∧ handleGet ((CloseLogger demoOpenState demoOpenWorld).2).handles 0
        = some ⟨"logs/demo.log", false⟩
    ∧ CloseLogger (CloseLogger demoOpenState demoOpenWorld).1
        (CloseLogger demoOpenState demoOpenWorld).2
      = CloseLogger demoOpenState demoOpenWorld :=
  ⟨⟨rfl, rfl⟩,
   (c9_close_idempotent demoOpenState demoOpenWorld).1 0 ⟨"logs/demo.log", true⟩ rfl rfl,
   (c9_close_idempotent demoOpenState demoOpenWorld).2⟩

/-- Claim C10: each formatted variant called with the empty template
produces exactly the same output as the corresponding unformatted
variant on the same arguments: the dispatcher applies no template
substitution and joins the arguments by the unformatted (Sprint)
rule. -/
theorem c10_empty_format_is_unformatted (curLevel : Nat) (v : List GoVal)
    (c : Option CallerInfo) (ts : Timestamp) :
    Debugf curLevel "" v c ts = Debug curLevel v c ts
    ∧ Infof curLevel "" v c ts = Info curLevel v c ts
    ∧ Warningf curLevel "" v c ts = Warning curLevel v c ts
    ∧ Errorf curLevel "" v c ts = Error curLevel v c ts
    ∧ Fatalf curLevel "" v c ts = Fatal curLevel v c ts
    ∧ buildMessage "" v = sprint v :=
  ⟨rfl, rfl, rfl, rfl, rfl, rfl⟩

end Logger
